import Mathlib

/-!
Shallow embedding of the commit-to-achievement pipeline of career-log-cli
(impact classification in `diff-analyzer`, PR-reference resolution in
`pr-parser.ts`, achievement synthesis in `achievement-generator`), together
with proofs of the frozen specification claims.

Strings are modelled as Lean `String` (a wrapper around `List Char`);
JavaScript string primitives (`trim`, `includes`, `startsWith`, `substring`,
truthiness) are embedded explicitly below.  Network and randomness effects
are supplied by explicit environment records, so every source function
becomes a pure Lean function of its inputs plus the environment.
-/

namespace CareerLog

/-! ## JavaScript string primitives -/

/-- The JavaScript whitespace set (WhiteSpace ∪ LineTerminator), as used by
`String.prototype.trim` and by the regex class `\s`. -/
def jsWhitespace (c : Char) : Bool :=
  c = ' ' || c = '\t' || c = '\n' || c = '\u000b' || c = '\u000c' || c = '\r' ||
  c = ' ' || c = ' ' ||
  c = ' ' || c = ' ' || c = ' ' || c = ' ' || c = ' ' ||
  c = ' ' || c = ' ' || c = ' ' || c = ' ' || c = ' ' ||
  c = ' ' || c = ' ' || c = ' ' || c = ' ' || c = ' ' ||
  c = '　' || c = '﻿'

/-- ASCII lower-casing of a string, the fragment of `toLowerCase` / the `i`
regex flag exercised by the (all-ASCII) patterns in the source. -/
def lowerStr (s : String) : String := ⟨s.data.map Char.toLower⟩

/-- `JavaScript:` `s.trim()` with only the leading part removed. -/
def trimLeftChars (cs : List Char) : List Char := cs.dropWhile jsWhitespace

/-- `JavaScript:` `s.trim()` with only the trailing part removed. -/
def trimRightChars (cs : List Char) : List Char :=
  (cs.reverse.dropWhile jsWhitespace).reverse

/-- `JavaScript:` `s.trim()`. -/
def jsTrim (s : String) : String := ⟨trimRightChars (trimLeftChars s.data)⟩

/-- Does `n` occur as a contiguous sublist of `h`?  (`String.prototype.includes`.) -/
def listContainsSub (n : List Char) : List Char → Bool
  | [] => n.isEmpty
  | c :: t => n.isPrefixOf (c :: t) || listContainsSub n t

/-- `JavaScript:` `s.includes(sub)` (case-sensitive). -/
def strContains (s sub : String) : Bool := listContainsSub sub.data s.data

/-- `JavaScript:` `s.startsWith(p)`. -/
def strStartsWith (s p : String) : Bool := p.data.isPrefixOf s.data

/-- `JavaScript:` `s.endsWith(p)`. -/
def strEndsWith (s p : String) : Bool := p.data.isSuffixOf s.data

/-- `JavaScript:` `s.substring(0, n)`. -/
def strTake (s : String) (n : Nat) : String := ⟨s.data.take n⟩

/-- `JavaScript:` `a || b` on strings (empty string is falsy). -/
def jsOrStr (a b : String) : String := if a = "" then b else a

/-- `JavaScript` truthiness of an optional string (undefined and "" are falsy). -/
def jsTruthyStr : Option String → Bool
  | none => false
  | some s => s != ""

/-- `JavaScript` truthiness of an optional number (undefined and 0 are falsy). -/
def jsTruthyNat : Option Nat → Bool
  | none => false
  | some n => n != 0

/-- Split a character list at newline characters; models the line structure
seen by a `/^x/gm` regex (`^` matches at the start and after every `'\n'`). -/
def splitLines : List Char → List (List Char)
  | [] => [[]]
  | c :: t =>
    if c = '\n' then [] :: splitLines t
    else
      match splitLines t with
      | [] => [[c]]
      | l :: ls => (c :: l) :: ls

/-- `JavaScript:` `(s.match(/^c/gm) || []).length` — the number of lines of `s`
that start with the character `c`. -/
def countLinesStarting (c : Char) (s : String) : Nat :=
  (splitLines s.data).countP (fun l => l.head? = some c)

/-- Helper for `countOccs`: scan left to right; after a match, `skip` more
positions are inside the matched occurrence and are not match starts. -/
def countOccsAux (n : List Char) : List Char → Nat → Nat
  | [], _ => 0
  | c :: t, skip =>
    if skip > 0 then countOccsAux n t (skip - 1)
    else if n.isPrefixOf (c :: t) then 1 + countOccsAux n t (n.length - 1)
    else countOccsAux n t 0

/-- Number of non-overlapping occurrences of `n` in `h`, scanning left to
right — `(h.match(/n/g) || []).length` for a plain-text pattern `n`. -/
def countOccs (n : List Char) (h : List Char) : Nat := countOccsAux n h 0

/-! ## pr-parser.ts : PR-number extraction

The four `PR_PATTERNS` regexes are embedded as position matchers over the
(ASCII-lowercased) character list, with JavaScript's leftmost-match,
ordered-alternation, greedy-quantifier semantics made explicit. -/

/-- The numeric value of a leading digit run, `parseInt(match, 10)` of the
capture `(\d+)`; `none` when no digit is present. -/
def matchDigits (cs : List Char) : Option Nat :=
  let d := cs.takeWhile Char.isDigit
  if d.isEmpty then none
  else some (d.foldl (fun a c => 10 * a + (c.toNat - '0'.toNat)) 0)

/-- The sub-pattern `(?:#|PR\s*#?)(\d+)` at the current position (input
already lowercased).  The optional `#?` backtracks: consuming `'#'` is only
kept when digits follow. -/
def matchHashOrPR (cs : List Char) : Option Nat :=
  match cs with
  | '#' :: rest => matchDigits rest
  | _ =>
    if "pr".data.isPrefixOf cs then
      let r := (cs.drop 2).dropWhile jsWhitespace
      match r with
      | '#' :: r2 => matchDigits r2
      | _ => matchDigits r
    else none

/-- The alternatives of `(?:fixes?|closes?|resolves?|merges?)` in regex
order (each greedy optional `s?` tried with the `'s'` first). -/
def closeKeywordForms : List (List Char) :=
  ["fixes".data, "fixe".data, "closes".data, "close".data,
   "resolves".data, "resolve".data, "merges".data, "merge".data]

/-- Try the close-keyword alternatives in order at position `cs`; each is
followed by `\s+` and then `(?:#|PR\s*#?)(\d+)`. -/
def p1TryKw : List (List Char) → List Char → Option Nat
  | [], _ => none
  | kw :: rest, cs =>
    (if kw.isPrefixOf cs then
      match cs.drop kw.length with
      | c :: r =>
        if jsWhitespace c then matchHashOrPR ((c :: r).dropWhile jsWhitespace)
        else none
      | [] => none
    else none) <|> p1TryKw rest cs

/-- `PR_PATTERNS[0]` = `/(?:fixes?|closes?|resolves?|merges?)\s+(?:#|PR\s*#?)(\d+)/i`
at one position. -/
def p1At (cs : List Char) : Option Nat := p1TryKw closeKeywordForms cs

/-- `PR_PATTERNS[1]` = `/(?:#|PR\s*#?)(\d+)/i` at one position. -/
def p2At (cs : List Char) : Option Nat := matchHashOrPR cs

/-- `PR_PATTERNS[2]` = `/PR[:\s]+(\d+)/i` at one position. -/
def p3At (cs : List Char) : Option Nat :=
  if "pr".data.isPrefixOf cs then
    let r := cs.drop 2
    match r with
    | c :: _ =>
      if c = ':' || jsWhitespace c then
        matchDigits (r.dropWhile (fun x => x = ':' || jsWhitespace x))
      else none
    | [] => none
  else none

/-- `PR_PATTERNS[3]` = `/pull[-\s]?request[:\s]+#?(\d+)/i` at one position. -/
def p4At (cs : List Char) : Option Nat :=
  if "pull".data.isPrefixOf cs then
    let afterReq : List Char → Option Nat := fun q =>
      if "request".data.isPrefixOf q then
        let r2 := q.drop 7
        match r2 with
        | c :: _ =>
          if c = ':' || jsWhitespace c then
            let r3 := r2.dropWhile (fun x => x = ':' || jsWhitespace x)
            match r3 with
            | '#' :: r4 => matchDigits r4
            | _ => matchDigits r3
          else none
        | [] => none
      else none
    let r := cs.drop 4
    (match r with
     | c :: r1 => if c = '-' || jsWhitespace c then afterReq r1 else none
     | [] => none) <|> afterReq r
  else none

/-- Leftmost match: try the position matcher at every index, left to right. -/
def scanFirst (pAt : List Char → Option Nat) : List Char → Option Nat
  | [] => pAt []
  | c :: t => pAt (c :: t) <|> scanFirst pAt t

/-- `pr-parser.ts` `extractPRNumber`: the patterns are tried over
`` `${commitMessage} ${commitBody || ''}` `` in `PR_PATTERNS` order; the
first pattern that matches anywhere wins and its digit capture is parsed. -/
def extractPRNumber (commitMessage : String) (commitBody : Option String) : Option Nat :=
  let combined := lowerStr (commitMessage ++ " " ++ commitBody.getD "")
  scanFirst p1At combined.data <|> scanFirst p2At combined.data <|>
    scanFirst p3At combined.data <|> scanFirst p4At combined.data

/-! ## pr-parser.ts : message helpfulness -/

/-- The `genericPatterns` table of `isCommitMessageHelpful`: each regex is a
whole-string (`^…$`) or anchored-prefix (`^…`) case-insensitive test against
the trimmed message. -/
def matchesGenericPattern (trimmed : String) : Bool :=
  let t := lowerStr trimmed
  t == "update" || t == "fix" || t == "change" || t == "changes" ||
  t == "wip" || t == "work in progress" || t == "merge" ||
  t == "update ..." || t == "bump" ||
  strStartsWith t "merge branch" || strStartsWith t "merge pull request"

/-- `pr-parser.ts` `isCommitMessageHelpful`. -/
def isCommitMessageHelpful (message : String) : Bool :=
  let trimmed := jsTrim message
  if trimmed.length < 10 then false
  else if matchesGenericPattern trimmed then false
  else true

/-! ## Data model -/

/-- `git-parser.ts` `Commit`. -/
structure Commit where
  hash : String
  date : String
  message : String
  author : String
  body : Option String
  files : Option (List String)
  insertions : Option Nat
  deletions : Option Nat
  prNumber : Option Nat
  prTitle : Option String
  prDescription : Option String
  prUrl : Option String
deriving DecidableEq

/-- The three impact tiers of `DiffAnalysis.impactLevel`. -/
inductive Impact where
  | high
  | medium
  | low
deriving DecidableEq

/-- `diff-analyzer` `DiffAnalysis.changeMetrics`. -/
structure ChangeMetrics where
  totalLines : Nat
  filesModified : Nat
  criticalFilesModified : Nat
deriving DecidableEq

/-- `diff-analyzer` `DiffAnalysis`. -/
structure DiffAnalysis where
  impactLevel : Impact
  signals : List String
  fileTypes : List String
  changeMetrics : ChangeMetrics
deriving DecidableEq

/-! ## diff-analyzer : analyzeDiff

Each source regex used on file paths is either a plain substring test or a
`$`-anchored suffix test (both case-insensitive), captured by `Pat`. -/

/-- A file-path pattern: case-insensitive substring or suffix. -/
inductive Pat where
  | sub (s : String)
  | suffix (s : String)
deriving DecidableEq

/-- `regex.test(s)` for a `Pat` (case-insensitive, pattern text lowercase). -/
def patTest (p : Pat) (s : String) : Bool :=
  match p with
  | .sub n => strContains (lowerStr s) n
  | .suffix n => strEndsWith (lowerStr s) n

/-- `CRITICAL_FILE_PATTERNS` of `diff-analyzer`.
`/migrations?/i` is equivalent to the substring test for `"migration"`. -/
def CRITICAL_FILE_PATTERNS : List Pat :=
  [.suffix "package.json", .suffix "package-lock.json", .suffix "yarn.lock",
   .sub "dockerfile", .sub "docker-compose", .sub ".dockerignore",
   .sub "migration", .sub "schema", .sub "auth", .sub "security", .sub "api",
   .sub ".github/workflows", .sub ".env", .sub "config", .sub ".config."]

/-- `CRITICAL_FILE_PATTERNS.some(p => p.test(file))`. -/
def isCriticalFile (f : String) : Bool :=
  CRITICAL_FILE_PATTERNS.any (fun p => patTest p f)

/-- `CRITICAL_KEYWORDS` of `diff-analyzer`. -/
def CRITICAL_KEYWORDS : List String :=
  ["performance", "optimize", "cache", "security", "vulnerability", "auth",
   "encryption", "critical", "urgent", "hotfix", "breach", "exploit",
   "sql injection", "xss", "csrf"]

/-- `PERFORMANCE_KEYWORDS` of `diff-analyzer`. -/
def PERFORMANCE_KEYWORDS : List String :=
  ["performance", "optimize", "optimization", "cache", "caching", "speed",
   "latency", "throughput", "efficiency"]

/-- `FILE_TYPE_PATTERNS` of `diff-analyzer` (`/\.tsx?$/i` expands to the two
suffixes `.ts` and `.tsx`, and similarly for the other `?`-regexes). -/
def FILE_TYPE_PATTERNS : List (String × List Pat) :=
  [("TypeScript", [.suffix ".ts", .suffix ".tsx", .sub "tsconfig"]),
   ("JavaScript", [.suffix ".js", .suffix ".jsx", .suffix ".mjs", .suffix ".cjs"]),
   ("Python", [.suffix ".py", .sub "requirements.txt", .sub "setup.py"]),
   ("Java", [.suffix ".java", .suffix ".class"]),
   ("Go", [.suffix ".go", .sub "go.mod"]),
   ("Rust", [.suffix ".rs", .sub "cargo.toml"]),
   ("Docker", [.sub "dockerfile", .sub "docker-compose", .sub ".dockerignore"]),
   ("Tests", [.sub ".test.", .sub ".spec.", .sub "__tests__", .sub "test/", .sub "tests/"]),
   ("Config", [.sub ".config.", .sub ".env", .suffix ".json", .suffix ".yaml", .suffix ".yml"]),
   ("CSS", [.suffix ".css", .suffix ".scss", .suffix ".sass", .suffix ".less"]),
   ("HTML", [.suffix ".html", .suffix ".htm"]),
   ("Markdown", [.suffix ".md", .suffix ".markdown"]),
   ("SQL", [.suffix ".sql"]),
   ("Shell", [.suffix ".sh", .suffix ".bash", .suffix ".zsh"])]

/-- The inner file-type loop of `analyzeDiff`: the first matching type for a
file (the `break` keeps at most one type per file). -/
def fileTypeOf (f : String) : Option String :=
  (FILE_TYPE_PATTERNS.find? (fun tp => tp.2.any (fun p => patTest p f))).map (·.1)

/-- Insertion into a `≤`-sorted list of strings. -/
def insertStr (x : String) : List String → List String
  | [] => [x]
  | y :: ys => if x ≤ y then x :: y :: ys else y :: insertStr x ys

/-- Lexicographic sort of strings — `Array.from(set).sort()`. -/
def sortStrs (l : List String) : List String := l.foldr insertStr []

/-- `totalLines` as computed by `analyzeDiff`:
`(commit.insertions || 0) + (commit.deletions || 0)`. -/
def totalLinesOf (commit : Commit) : Nat :=
  commit.insertions.getD 0 + commit.deletions.getD 0

/-- The signals contributed by the diff-content section of `analyzeDiff`
(`try { const diff = await git.diff(...) ... }`); `diff? = none` models the
catch branch (first commit has no parent), which adds nothing. -/
def diffContentSignals (diff? : Option String) : List String :=
  match diff? with
  | none => []
  | some diff =>
    let diffLower := lowerStr diff
    let kwSignals :=
      match CRITICAL_KEYWORDS.find? (fun k => strContains diffLower (lowerStr k)) with
      | some k => ["Critical keyword found: " ++ k]
      | none => []
    let perfSignals :=
      match PERFORMANCE_KEYWORDS.find? (fun k => strContains diffLower (lowerStr k)) with
      | some _ => ["Performance-related changes detected"]
      | none => []
    let addedLines := countLinesStarting '+' diff
    let removedLines := countLinesStarting '-' diff
    let refactorSignals :=
      if removedLines > 100 ∧ addedLines > 100 then ["Large refactoring detected"] else []
    let featureSignals :=
      if addedLines > 200 ∧ removedLines < 50 then ["New feature implementation"] else []
    let bugfixSignals :=
      if removedLines > 50 ∧ 2 * addedLines < removedLines then ["Bug fix pattern detected"] else []
    kwSignals ++ perfSignals ++ refactorSignals ++ featureSignals ++ bugfixSignals

/-- The signal list of `analyzeDiff` just before the tier decision:
per-file critical-file signals (in file order) followed by the diff-content
signals. -/
def baseSignals (commit : Commit) (diff? : Option String) : List String :=
  ((commit.files.getD []).filter isCriticalFile).map
      (fun f => "Critical file modified: " ++ f)
    ++ diffContentSignals diff?

/-- `filesModified` as computed by `analyzeDiff`: `commit.files?.length || 0`. -/
def filesModifiedOf (commit : Commit) : Nat := (commit.files.getD []).length

/-- `criticalFilesModified` as computed by the file loop of `analyzeDiff`. -/
def criticalCount (commit : Commit) : Nat :=
  ((commit.files.getD []).filter isCriticalFile).length

/-- The HIGH-impact condition of `analyzeDiff`, evaluated on the signal list
as it stands before the tier decision. -/
def highCond (commit : Commit) (diff? : Option String) : Prop :=
  totalLinesOf commit > 500 ∨ criticalCount commit > 0 ∨
    (baseSignals commit diff?).any (fun s => strContains s "Critical") = true

instance (commit : Commit) (diff? : Option String) :
    Decidable (highCond commit diff?) := by
  unfold highCond
  infer_instance

/-- The MEDIUM-impact condition of `analyzeDiff`. -/
def medCond (commit : Commit) (diff? : Option String) : Prop :=
  (100 ≤ totalLinesOf commit ∧ totalLinesOf commit ≤ 500) ∨
    (3 ≤ filesModifiedOf commit ∧ filesModifiedOf commit ≤ 10) ∨
    (baseSignals commit diff?).any (fun s => strContains s "Performance") = true

instance (commit : Commit) (diff? : Option String) :
    Decidable (medCond commit diff?) := by
  unfold medCond
  infer_instance

/-- The signal list of `analyzeDiff` after the tier decision's appends
(before the `"Standard commit"` fallback). -/
def tierSignals (commit : Commit) (diff? : Option String) : List String :=
  if highCond commit diff? then
    baseSignals commit diff? ++
      (if totalLinesOf commit > 500 then
        ["Large change: " ++ toString (totalLinesOf commit) ++ " lines"] else [])
  else if medCond commit diff? then
    baseSignals commit diff? ++
      (if 100 ≤ totalLinesOf commit then
        ["Moderate change: " ++ toString (totalLinesOf commit) ++ " lines"] else [])
      ++ (if 3 ≤ filesModifiedOf commit then
        ["Multiple files: " ++ toString (filesModifiedOf commit) ++ " files"] else [])
  else
    baseSignals commit diff? ++
      (if totalLinesOf commit < 100 then
        ["Small change: " ++ toString (totalLinesOf commit) ++ " lines"] else [])
      ++ (if filesModifiedOf commit ≤ 2 then
        ["Few files: " ++ toString (filesModifiedOf commit) ++ " file(s)"] else [])

/-- `diff-analyzer` `analyzeDiff`, as a function of the commit record and the
outcome of diff retrieval (`none` = `git.diff` threw): the tier is decided
top-down (high, else medium, else low) and the corresponding signals are
appended as in `tierSignals`. -/
def analyzeDiff (commit : Commit) (diff? : Option String) : DiffAnalysis :=
  { impactLevel :=
      if highCond commit diff? then Impact.high
      else if medCond commit diff? then Impact.medium
      else Impact.low
    signals :=
      if (tierSignals commit diff?).isEmpty then ["Standard commit"]
      else tierSignals commit diff?
    fileTypes := sortStrs ((commit.files.getD []).filterMap fileTypeOf).dedup
    changeMetrics :=
      { totalLines := totalLinesOf commit
        filesModified := filesModifiedOf commit
        criticalFilesModified := criticalCount commit } }

/-! ## pr-parser.ts : platform detection and PR fetch

`detectRepoInfo` shells out to git and is modelled as an oracle value; the
two fetch functions are modelled on the JSON fields they read, with the
network outcome (`none` = thrown error, non-ok status, or missing fields)
supplied by the environment. -/

inductive Platform where
  | github
  | gitlab
  | unknown
deriving DecidableEq

/-- Result shape of `detectRepoInfo`. -/
structure RepoInfo where
  platform : Platform
  owner : Option String
  repo : Option String
  projectPath : Option String
deriving DecidableEq

/-- `pr-parser.ts` `PRInfo`. -/
structure PRInfo where
  number : Nat
  title : Option String
  description : Option String
  url : Option String
deriving DecidableEq

/-- The JSON fields of a GitHub pulls-API response read by `fetchPRFromGitHub`. -/
structure GHResp where
  title : Option String
  body : Option String
  html_url : Option String
deriving DecidableEq

/-- The JSON fields of a GitLab merge-request response read by `fetchPRFromGitLab`. -/
structure GLResp where
  title : Option String
  description : Option String
  web_url : Option String
deriving DecidableEq

/-- `pr-parser.ts` `fetchPRFromGitHub`; `resp = none` models a thrown fetch
error or a non-ok HTTP status. -/
def fetchPRFromGitHub (owner repo : String) (prNumber : Nat)
    (apiKey : Option String) (resp : Option GHResp) : Option PRInfo :=
  if jsTruthyStr apiKey = false then none
  else
    match resp with
    | none => none
    | some d =>
      some { number := prNumber
             title := d.title
             description :=
               match d.body with
               | some b => if b = "" then none else some b
               | none => none
             url := d.html_url }

/-- `pr-parser.ts` `fetchPRFromGitLab`. -/
def fetchPRFromGitLab (projectPath : String) (prNumber : Nat)
    (apiKey : Option String) (gitlabUrl : Option String)
    (resp : Option GLResp) : Option PRInfo :=
  if jsTruthyStr apiKey = false then none
  else
    match resp with
    | none => none
    | some d =>
      some { number := prNumber
             title := d.title
             description :=
               match d.description with
               | some b => if b = "" then none else some b
               | none => none
             url := d.web_url }

/-- The option fields of `getPRInfo`. -/
structure PROptions where
  skipPR : Bool
  githubToken : Option String
  gitlabToken : Option String
  gitlabUrl : Option String
deriving DecidableEq

/-- Environment for `getPRInfo`: the detected repository info and the two
network outcomes. -/
structure PREnv where
  repoInfo : RepoInfo
  githubResp : Option GHResp
  gitlabResp : Option GLResp
deriving DecidableEq

/-- The unresolved fallback `{ number: prNumber }` of `getPRInfo`. -/
def barePRInfo (n : Nat) : PRInfo :=
  { number := n, title := none, description := none, url := none }

/-- `pr-parser.ts` `getPRInfo`.  Note `if (!prNumber) return null`: an
extracted reference number `0` is falsy in JavaScript, so it also yields
`none`. -/
def getPRInfo (commitMessage : String) (commitBody : Option String)
    (opts : PROptions) (env : PREnv) : Option PRInfo :=
  if opts.skipPR then none
  else
    match extractPRNumber commitMessage commitBody with
    | none => none
    | some prNumber =>
      if prNumber = 0 then none
      else
        let repoInfo := env.repoInfo
        let ghTry :=
          if repoInfo.platform = Platform.github ∧ jsTruthyStr repoInfo.owner ∧
              jsTruthyStr repoInfo.repo ∧ jsTruthyStr opts.githubToken then
            fetchPRFromGitHub (repoInfo.owner.getD "") (repoInfo.repo.getD "")
              prNumber opts.githubToken env.githubResp
          else none
        match ghTry with
        | some prInfo => some prInfo
        | none =>
          let glTry :=
            if repoInfo.platform = Platform.gitlab ∧
                jsTruthyStr repoInfo.projectPath ∧ jsTruthyStr opts.gitlabToken then
              fetchPRFromGitLab (repoInfo.projectPath.getD "") prNumber
                opts.gitlabToken opts.gitlabUrl env.gitlabResp
            else none
          match glTry with
          | some prInfo => some prInfo
          | none => some (barePRInfo prNumber)

/-! ## achievement-generator : local pattern synthesis -/

/-- `COMPONENT_PATTERNS` of the achievement generator (regexes split into
substring and `$`-anchored suffix patterns as in `Pat`). -/
def COMPONENT_PATTERNS : List (String × List Pat) :=
  [("auth", [.sub "auth", .sub "authentication", .sub "login", .sub "session",
             .sub "jwt", .sub "oauth", .sub "token"]),
   ("API", [.sub "api", .sub "endpoint", .sub "route", .sub "controller", .sub "handler"]),
   ("database", [.sub "database", .sub "db", .sub "sql", .sub "query",
                 .sub "migration", .sub "schema", .sub "model"]),
   ("UI", [.sub "ui", .sub "component", .sub "view", .sub "page", .sub "screen",
           .suffix ".tsx", .suffix ".jsx", .suffix ".vue"]),
   ("frontend", [.sub "frontend", .sub "client", .suffix ".html", .suffix ".css",
                 .suffix ".scss"]),
   ("backend", [.sub "backend", .sub "server", .sub "service", .suffix ".py",
                .suffix ".java"]),
   ("testing", [.sub "test", .sub "spec", .sub ".test.", .sub ".spec.", .sub "__tests__"]),
   ("security", [.sub "security", .sub "encryption", .sub "vulnerability",
                 .sub "sanitize", .sub "validate"]),
   ("performance", [.sub "performance", .sub "optimize", .sub "cache", .sub "speed",
                    .sub "latency"]),
   ("config", [.sub "config", .sub ".env", .suffix ".yaml", .suffix ".yml", .suffix ".json"]),
   ("infrastructure", [.sub "docker", .sub "kubernetes", .sub "deploy", .sub "ci/cd",
                       .sub ".github/workflows"])]

/-- `(combined.match(new RegExp(pattern.source, 'gi')) || []).length` where
`combined` is already lowercase. -/
def patCount (p : Pat) (s : String) : Nat :=
  match p with
  | .sub n => countOccs n.data s.data
  | .suffix n => if n.data.isSuffixOf s.data then 1 else 0

/-- `topComponent.charAt(0).toUpperCase() + topComponent.slice(1)`. -/
def titleCaseStr (s : String) : String :=
  match s.data with
  | [] => ""
  | c :: t => ⟨c.toUpper :: t⟩

/-- First entry attaining the maximal score (JavaScript's stable descending
sort followed by `[0]`). -/
def argmaxFirst : List (String × Nat) → Option (String × Nat)
  | [] => none
  | x :: xs => some (xs.foldl (fun best y => if y.2 > best.2 then y else best) x)

/-- The per-component score of `extractComponent`: for each pattern, twice
the number of matching files plus the number of matches in the combined
lower-cased text. -/
def componentScore (files : List String) (combined : String) (pats : List Pat) : Nat :=
  pats.foldl (fun acc p =>
    acc + (files.filter (fun f => patTest p f)).length * 2 + patCount p combined) 0

/-- `achievement-generator` `extractComponent`. -/
def extractComponent (files : List String) (diffContent : String) : String :=
  let combined := lowerStr (String.intercalate " " files ++ " " ++ diffContent)
  let componentScores := COMPONENT_PATTERNS.filterMap (fun cp =>
    if componentScore files combined cp.2 > 0 then
      some (cp.1, componentScore files combined cp.2)
    else none)
  match argmaxFirst componentScores with
  | some top => titleCaseStr top.1
  | none =>
    if files.any (fun f => strEndsWith (lowerStr f) ".tsx" ||
        strEndsWith (lowerStr f) ".jsx" || strEndsWith (lowerStr f) ".vue") then "UI"
    else if files.any (fun f => strEndsWith (lowerStr f) ".py" ||
        strEndsWith (lowerStr f) ".java" || strEndsWith (lowerStr f) ".go" ||
        strEndsWith (lowerStr f) ".rs") then "Backend"
    else if files.any (fun f => strContains (lowerStr f) ".sql" ||
        strContains (lowerStr f) ".migration") then "Database"
    else "System"

/-- `ACTION_KEYWORDS` of the achievement generator, in table order. -/
def ACTION_KEYWORDS : List (String × List String) :=
  [("optimize", ["optimize", "optimization", "performance", "cache", "speed",
                 "latency", "efficiency"]),
   ("implement", ["implement", "add", "create", "build", "introduce", "feature"]),
   ("fix", ["fix", "resolve", "solve", "bug", "error", "issue", "patch"]),
   ("enhance", ["enhance", "improve", "upgrade", "refine", "polish"]),
   ("refactor", ["refactor", "restructure", "reorganize", "cleanup"]),
   ("test", ["test", "testing", "coverage", "spec", "assert"]),
   ("secure", ["secure", "security", "encrypt", "sanitize", "validate", "auth"])]

/-- The `actionMap` of `extractAction` (present-participle forms). -/
def actionMap : List (String × String) :=
  [("optimize", "optimizing"), ("implement", "implementing"), ("fix", "fixing"),
   ("enhance", "enhancing"), ("refactor", "refactoring"), ("test", "testing"),
   ("secure", "securing")]

/-- `achievement-generator` `extractAction`. -/
def extractAction (commitMessage : String) (diffContent : String) : String :=
  let combined := lowerStr (commitMessage ++ " " ++ diffContent)
  match ACTION_KEYWORDS.find? (fun ak =>
      ak.2.any (fun keyword => strContains combined keyword)) with
  | some ak => (actionMap.lookup ak.1).getD ak.1
  | none =>
    let addedLines := countLinesStarting '+' diffContent
    let removedLines := countLinesStarting '-' diffContent
    if addedLines > removedLines * 2 then "implementing"
    else if removedLines > addedLines * 2 then "fixing"
    else "improving"

/-- The keyword sets of `ACHIEVEMENT_PATTERNS`, in table order. -/
def performanceKeywords : List String :=
  ["performance", "optimize", "cache", "speed", "latency"]
def securityKeywords : List String :=
  ["security", "encrypt", "vulnerability", "auth", "sanitize"]
def featureKeywords : List String :=
  ["implement", "add", "create", "feature", "introduce"]
def bugfixKeywords : List String :=
  ["fix", "resolve", "bug", "error", "issue"]
def testingKeywords : List String :=
  ["test", "testing", "coverage", "spec"]

/-- The pattern-based fallback block of `generateAchievement` (path 3):
returns the produced text and the `matched` flag (`false` selects the
impact-level fallback whose confidence is 0.6). -/
def patternStep (commit : Commit) (da : DiffAnalysis) (diffContent : String) :
    String × Bool :=
  let combinedText := lowerStr (commit.message ++ " " ++ commit.body.getD "" ++ " " ++ diffContent)
  let component := extractComponent (commit.files.getD []) diffContent
  let action := extractAction commit.message diffContent
  if performanceKeywords.any (fun k => strContains combinedText k) then
    ("Optimized " ++ component ++ " by " ++ jsOrStr action "optimizing", true)
  else if securityKeywords.any (fun k => strContains combinedText k) then
    ("Enhanced security in " ++ component, true)
  else if featureKeywords.any (fun k => strContains combinedText k) then
    ("Implemented " ++ component ++ " feature affecting " ++
      toString da.changeMetrics.filesModified ++ " modules", true)
  else if bugfixKeywords.any (fun k => strContains combinedText k) then
    ("Fixed " ++ component ++ " bug", true)
  else if testingKeywords.any (fun k => strContains combinedText k) then
    ("Improved code reliability with " ++ jsOrStr action "testing", true)
  else
    let filesCount := da.changeMetrics.filesModified
    (match da.impactLevel with
     | Impact.high =>
       if filesCount > 10 then
         "Delivered major " ++ lowerStr component ++ " feature affecting " ++
           toString filesCount ++ " modules"
       else "Completed high-impact " ++ lowerStr component ++ " work"
     | Impact.medium => "Delivered " ++ lowerStr component ++ " feature"
     | Impact.low => "Made " ++ lowerStr component ++ " improvements", false)

/-! ## achievement-generator : generative backends and orchestration -/

/-- `achievement-generator` `AchievementResult`.  Confidence values are the
exact decimal literals of the source, embedded in `ℚ`. -/
structure AchievementResult where
  achievement : String
  confidence : ℚ
  aiGenerated : Bool
  dataLocal : Bool
deriving DecidableEq

/-- `generateWithOpenAI`: `response = none` models a thrown fetch error, a
non-ok status, or missing `choices[0].message.content`; `some content` is the
returned message content (the prompt built from the arguments only affects
the request). -/
def generateWithOpenAI (commit : Commit) (diffContent : String)
    (da : DiffAnalysis) (apiKey : String) (response : Option String) :
    Option AchievementResult :=
  match response with
  | none => none
  | some content =>
    if jsTrim content = "" then none
    else some { achievement := strTake (jsTrim content) 150, confidence := 0.95,
                aiGenerated := true, dataLocal := false }

/-- `generateWithOllama`: `response = none` models a thrown fetch error, a
non-ok status, or a missing `response` field. -/
def generateWithOllama (commit : Commit) (diffContent : String)
    (da : DiffAnalysis) (model : String) (response : Option String) :
    Option AchievementResult :=
  match response with
  | none => none
  | some content =>
    if jsTrim content = "" then none
    else some { achievement := strTake (jsTrim content) 150, confidence := 0.85,
                aiGenerated := true, dataLocal := true }

/-- The options record of `generateAchievement` (the unused
`confidenceThreshold` is kept for shape). -/
structure GenOptions where
  apiKey : Option String
  useLocalLlm : Bool
  ollamaModel : Option String
  enterprise : Bool
  confidenceThreshold : Option ℚ
  skipPR : Bool
  githubToken : Option String
  gitlabToken : Option String
  gitlabUrl : Option String
deriving DecidableEq

/-- Environment for one `generateAchievement` call: the random draw, the
`getDiffContent` outcome (`""` when `git.diff` throws), the PR-resolution
environment, and the two backend responses. -/
structure GenEnv where
  randBelowHalf : Bool
  diffContent : String
  prEnv : PREnv
  openaiContent : Option String
  ollamaContent : Option String

/-- Which generative backends were actually invoked (fetch performed) during
a `generateAchievement` call. -/
structure CallLog where
  openaiCalled : Bool
  ollamaCalled : Bool
deriving DecidableEq

/-- `shouldSkipForAI` of `generateAchievement`:
`impactLevel === 'low' && (apiKey || useLocalLlm) && Math.random() < 0.5`. -/
def shouldSkipForAI (da : DiffAnalysis) (opts : GenOptions) (env : GenEnv) : Bool :=
  (da.impactLevel == Impact.low) &&
    (jsTruthyStr opts.apiKey || opts.useLocalLlm) && env.randBelowHalf

/-- `usePRInfo` of `generateAchievement`:
`!skipPR && !isCommitMessageHelpful(message) && commit.prNumber`. -/
def usePRInfoCond (commit : Commit) (opts : GenOptions) : Bool :=
  !opts.skipPR && !isCommitMessageHelpful commit.message &&
    jsTruthyNat commit.prNumber

/-- The PR branch of `generateAchievement` (path 1/1b): produces the
achievement text and confidence.  The write-back of the fetched title onto
the commit record is a cache for later reuse and does not affect this
call's result, so it is not modelled. -/
def prStep (commit : Commit) (opts : GenOptions) (env : GenEnv) : String × ℚ :=
  if jsTruthyStr commit.prTitle then (commit.prTitle.getD "", 0.9)
  else
    match getPRInfo commit.message commit.body
        { skipPR := opts.skipPR, githubToken := opts.githubToken,
          gitlabToken := opts.gitlabToken, gitlabUrl := opts.gitlabUrl }
        env.prEnv with
    | none => ("", 0.75)
    | some prInfo =>
      if jsTruthyStr prInfo.title then (prInfo.title.getD "", 0.9)
      else if jsTruthyNat (some prInfo.number) then
        ("PR #" ++ toString prInfo.number, 0.7)
      else ("", 0.75)

/-- The tail of `generateAchievement` after the backend attempts: the
pattern-based fallback block guarded by `if (!achievementText)` and the
final return with its `|| commit.message.substring(0, 60)` fallback. -/
def finalizeResult (commit : Commit) (da : DiffAnalysis) (env : GenEnv)
    (text : String) (conf : ℚ) : AchievementResult :=
  if text = "" then
    let p := patternStep commit da env.diffContent
    { achievement := jsOrStr p.1 (strTake commit.message 60)
      confidence := if p.2 then conf else 0.6
      aiGenerated := false
      dataLocal := true }
  else
    { achievement := jsOrStr text (strTake commit.message 60)
      confidence := conf
      aiGenerated := false
      dataLocal := true }

/-- `achievement-generator` `generateAchievement` (the `AchievementResult`
version of `src/unnamed/part_003`), instrumented with the backend-call log. -/
def generateAchievement (commit : Commit) (da : DiffAnalysis)
    (opts : GenOptions) (env : GenEnv) : AchievementResult × CallLog :=
  let skip := shouldSkipForAI da opts env
  let usePR := usePRInfoCond commit opts
  let tc := if !skip && usePR then prStep commit opts env else ("", 0.75)
  if tc.1 = "" ∧ opts.enterprise = false ∧ skip = false then
    let diffContent := env.diffContent
    if jsTruthyStr opts.apiKey then
      match generateWithOpenAI commit diffContent da (opts.apiKey.getD "")
          env.openaiContent with
      | some r => (r, ⟨true, false⟩)
      | none =>
        if opts.useLocalLlm then
          match generateWithOllama commit diffContent da
              (jsOrStr (opts.ollamaModel.getD "") "llama3.2") env.ollamaContent with
          | some r => (r, ⟨true, true⟩)
          | none => (finalizeResult commit da env tc.1 tc.2, ⟨true, true⟩)
        else (finalizeResult commit da env tc.1 tc.2, ⟨true, false⟩)
    else
      if opts.useLocalLlm then
        match generateWithOllama commit diffContent da
            (jsOrStr (opts.ollamaModel.getD "") "llama3.2") env.ollamaContent with
        | some r => (r, ⟨false, true⟩)
        | none => (finalizeResult commit da env tc.1 tc.2, ⟨false, true⟩)
      else (finalizeResult commit da env tc.1 tc.2, ⟨false, false⟩)
  else (finalizeResult commit da env tc.1 tc.2, ⟨false, false⟩)

/-! ## Spec-side predicates (used to compare claims against the code) -/

/-- The fixed generic-phrase set as enumerated by the specification claim
(whole-string matches; the two `...` entries are the anchored-prefix
phrases). -/
def claimGenericPhrases : List String :=
  ["update", "fix", "change", "changes", "wip", "work in progress", "merge", "bump"]

/-- The claim's characterization of an unhelpful message: trimmed length
under 10, or a whole-string case-insensitive match of a fixed phrase, or one
of the two prefix phrases. -/
def claimUnhelpful (s : String) : Bool :=
  let t := lowerStr (jsTrim s)
  decide ((jsTrim s).length < 10) || claimGenericPhrases.contains t ||
    strStartsWith t "merge branch" || strStartsWith t "merge pull request"

/-- The amended characterization: the source additionally rejects the exact
phrase `"update ..."` (regex `/^update \.\.\.$/i`). -/
def claimUnhelpfulAmended (s : String) : Bool :=
  claimUnhelpful s || lowerStr (jsTrim s) == "update ..."

/-! ## Concrete fixtures for witnesses and counterexamples -/

/-- A minimal commit record builder for concrete evaluations. -/
def mkCommit (msg : String) (files : Option (List String)) (ins del : Nat)
    (prN : Option Nat) (prT : Option String) : Commit :=
  { hash := "h", date := "2024-01-01", message := msg, author := "a",
    body := none, files := files, insertions := some ins, deletions := some del,
    prNumber := prN, prTitle := prT, prDescription := none, prUrl := none }

/-- Options with no backend, no tokens, nothing skipped. -/
def plainOpts : GenOptions :=
  { apiKey := none, useLocalLlm := false, ollamaModel := none,
    enterprise := false, confidenceThreshold := none, skipPR := false,
    githubToken := none, gitlabToken := none, gitlabUrl := none }

/-- Environment with an unknown platform, empty diff, and no responses. -/
def plainEnv : GenEnv :=
  { randBelowHalf := false, diffContent := "",
    prEnv := { repoInfo := { platform := Platform.unknown, owner := none,
                             repo := none, projectPath := none },
               githubResp := none, gitlabResp := none },
    openaiContent := none, ollamaContent := none }

/-- A low-impact `DiffAnalysis` fixture. -/
def lowDA : DiffAnalysis :=
  { impactLevel := Impact.low, signals := ["Small change: 2 lines"],
    fileTypes := [],
    changeMetrics := { totalLines := 2, filesModified := 1,
                       criticalFilesModified := 0 } }

/-- A GitHub repository detection result. -/
def ghRepoInfo : RepoInfo :=
  { platform := Platform.github, owner := some "o", repo := some "r",
    projectPath := none }

/-- A PR environment where the GitHub fetch succeeds. -/
def ghEnv : PREnv :=
  { repoInfo := ghRepoInfo
    githubResp := some { title := some "Optimize database queries",
                         body := some "desc", html_url := some "https://x" }
    gitlabResp := none }

/-- PR options with a GitHub token and resolution enabled. -/
def ghPROpts : PROptions :=
  { skipPR := false, githubToken := some "t", gitlabToken := none,
    gitlabUrl := none }

/-- The result produced by the local pattern-matching synthesis path alone
(path 3): empty incoming text and the default pattern confidence 0.75,
followed by the final-fallback return. -/
def patternOnlyResult (commit : Commit) (da : DiffAnalysis) (env : GenEnv) :
    AchievementResult :=
  finalizeResult commit da env "" 0.75

/-- Options with the enterprise flag set and both backends configured. -/
def entOpts : GenOptions :=
  { plainOpts with enterprise := true, apiKey := some "k", useLocalLlm := true }

/-- Options with an OpenAI key configured (no enterprise flag). -/
def keyOpts : GenOptions :=
  { plainOpts with apiKey := some "k" }

/-- Environment whose random draw selects the low-impact backend skip. -/
def skipEnv : GenEnv :=
  { plainEnv with randBelowHalf := true, openaiContent := some "From backend" }

/-- `n` lines consisting of the single character `ch`, each ended by a
newline. -/
def mkLines : Nat → Char → List Char
  | 0, _ => []
  | n + 1, ch => ch :: '\n' :: mkLines n ch

/-- A diff with 150 added-line markers and 400 removed-line markers — the
overlap region of the refactoring and bug-fix structural checks. -/
def c8Diff : String := ⟨mkLines 150 '+' ++ mkLines 400 '-'⟩

/-- A small commit whose diff is `c8Diff`. -/
def c8Commit : Commit := mkCommit "update stuff" none 10 10 none none

/-- A commit with 600 inserted lines (and no files). -/
def c600 : Commit := mkCommit "m" none 600 0 none none

/-- A tiny commit (3 inserted lines). -/
def cSmall : Commit := mkCommit "m" none 3 0 none none

/-! ## Helper lemmas -/

theorem trimRightChars_eq_rdropWhile (l : List Char) :
    trimRightChars l = List.rdropWhile jsWhitespace l := rfl

theorem jsTrim_idem (s : String) : jsTrim (jsTrim s) = jsTrim s := by
  have key : ∀ d : List Char,
      trimRightChars (trimLeftChars (trimRightChars (trimLeftChars d)))
        = trimRightChars (trimLeftChars d) := by
    intro d
    have h1 : trimLeftChars (trimRightChars (trimLeftChars d))
        = trimRightChars (trimLeftChars d) := by
      show List.dropWhile jsWhitespace
          (List.rdropWhile jsWhitespace (List.dropWhile jsWhitespace d))
        = List.rdropWhile jsWhitespace (List.dropWhile jsWhitespace d)
      rw [List.dropWhile_eq_self_iff]
      intro hl hp
      have hpre : List.rdropWhile jsWhitespace (List.dropWhile jsWhitespace d)
          <+: List.dropWhile jsWhitespace d := List.rdropWhile_prefix _ _
      have hAl : 0 < (List.dropWhile jsWhitespace d).length :=
        lt_of_lt_of_le hl hpre.length_le
      have hget := hpre.getElem hl
      have hA0 := List.dropWhile_get_zero_not jsWhitespace d hAl
      apply hA0
      simpa [List.get_eq_getElem, hget] using hp
    rw [h1]
    simp only [trimRightChars_eq_rdropWhile]
    exact List.rdropWhile_idempotent _ _
  exact congrArg String.mk (key s.data)

theorem matchesGeneric_eq (t : String) :
    matchesGenericPattern t =
      (claimGenericPhrases.contains (lowerStr t) ||
       strStartsWith (lowerStr t) "merge branch" ||
       strStartsWith (lowerStr t) "merge pull request" ||
       lowerStr t == "update ...") := by
  simp only [matchesGenericPattern, claimGenericPhrases]
  rw [Bool.eq_iff_iff]
  simp only [Bool.or_eq_true, List.contains_cons, List.contains_nil,
    Bool.or_false, beq_iff_eq]
  tauto

theorem if_negate (b : Bool) : (if b = true then false else true) = !b := by
  cases b <;> simp

theorem helpful_eq_not_claimAmended (s : String) :
    isCommitMessageHelpful s = !(claimUnhelpfulAmended s) := by
  unfold isCommitMessageHelpful claimUnhelpfulAmended claimUnhelpful
  by_cases h : (jsTrim s).length < 10
  · simp [h]
  · have hd : decide ((jsTrim s).length < 10) = false := by simpa using h
    simp only [h, if_false, hd, Bool.false_or]
    rw [matchesGeneric_eq, if_negate]
    simp [Bool.or_assoc]

/-! ## Claim C4 -/

/-- C4 (counterexample): the claim's characterization marks `"update ..."`
(trimmed length 10, not in the claim's generic-phrase set) as helpful, but
`isCommitMessageHelpful` rejects it via the `/^update \.\.\.$/i` pattern that
the claim's list omits. -/
theorem C4_counterexample :
    isCommitMessageHelpful "update ..." = false ∧
      claimUnhelpful "update ..." = false := by
  constructor <;> decide

/-- C4 (amended): `isCommitMessageHelpful s` is false exactly when the
trimmed message is shorter than 10 characters or whole-string-matches
(case-insensitively) one of the generic phrases — with the phrase
`"update ..."` added to the claim's list — and
`isCommitMessageHelpful s = isCommitMessageHelpful (trim s)` for every `s`. -/
theorem C4_helpfulness (s : String) :
    (isCommitMessageHelpful s = false ↔ claimUnhelpfulAmended s = true) ∧
      isCommitMessageHelpful s = isCommitMessageHelpful (jsTrim s) := by
  constructor
  · rw [helpful_eq_not_claimAmended]
    cases claimUnhelpfulAmended s <;> simp
  · show _ = isCommitMessageHelpful (jsTrim s)
    unfold isCommitMessageHelpful
    rw [jsTrim_idem]

/-- C4 (witness): the characterization applied at the concrete generic
message `"work in progress"`. -/
theorem C4_witness :
    isCommitMessageHelpful "work in progress" = false :=
  (C4_helpfulness "work in progress").1.mpr (by decide)

/-! ## Claim C6 -/

/-- C6 (counterexample): the input does contain the substring
`"fixes #1 and closes #2"`, yet extraction returns 2 — the leftmost match of
the close-keyword pattern in the whole text wins, so "for any text
containing `fixes #1 and closes #2` it returns 1" is false. -/
theorem C6_counterexample :
    strContains "closes #2 yet fixes #1 and closes #2" "fixes #1 and closes #2"
        = true ∧
      extractPRNumber "closes #2 yet fixes #1 and closes #2" none = some 2 := by
  constructor <;> decide

/-- C6 (amended): the explicit close-keyword pattern is tried first — if it
matches anywhere in `subject + " " + body`, its leftmost capture is the
result — and on the text `"fixes #1 and closes #2"` itself extraction
returns 1 (the first pattern match, not the smallest number). -/
theorem C6_extraction_order :
    extractPRNumber "fixes #1 and closes #2" none = some 1 ∧
      ∀ (m : String) (b : Option String) (n : Nat),
        scanFirst p1At (lowerStr (m ++ " " ++ b.getD "")).data = some n →
          extractPRNumber m b = some n := by
  constructor
  · decide
  · intro m b n h
    unfold extractPRNumber
    simp only [h, Option.some_orElse]

/-- C6 (witness): the ordering rule applied at a concrete input where both
the close-keyword pattern and the bare-`#N` pattern occur. -/
theorem C6_witness : extractPRNumber "see #44; resolves #9" none = some 9 :=
  C6_extraction_order.2 "see #44; resolves #9" none 9 (by decide)

/-! ## Claim C5 -/

/-- C5 (counterexample): with resolution enabled, a token supplied, and a
successful fetch available, the message `"#0"` has an extractable reference
number (`0`), yet `getPRInfo` returns `none`: the source's
`if (!prNumber) return null` treats the falsy number 0 as "no reference". -/
theorem C5_counterexample :
    extractPRNumber "#0" none = some 0 ∧
      getPRInfo "#0" none ghPROpts ghEnv = none := by
  constructor <;> decide

theorem getPRInfo_none_iff (msg : String) (body : Option String)
    (opts : PROptions) (env : PREnv) :
    getPRInfo msg body opts env = none ↔
      opts.skipPR = true ∨ extractPRNumber msg body = none ∨
        extractPRNumber msg body = some 0 := by
  unfold getPRInfo
  by_cases hs : opts.skipPR = true
  · simp [hs]
  · simp only [hs, if_false]
    cases hx : extractPRNumber msg body with
    | none => simp [hs]
    | some n =>
      by_cases h0 : n = 0
      · subst h0
        simp [hs]
      · simp only [Bool.false_eq_true, if_false, if_neg h0]
        constructor
        · intro h
          exfalso
          revert h
          split
          · simp
          · split <;> simp
        · rintro (h | h | h)
          · exact h.elim
          · exact absurd h (by simp)
          · exact absurd h (by simp [h0])

theorem getPRInfo_unfold (msg : String) (body : Option String)
    (opts : PROptions) (env : PREnv) (n : Nat)
    (hs : opts.skipPR = false) (hx : extractPRNumber msg body = some n)
    (h0 : n ≠ 0) :
    getPRInfo msg body opts env =
      (match (if env.repoInfo.platform = Platform.github ∧
            jsTruthyStr env.repoInfo.owner = true ∧
            jsTruthyStr env.repoInfo.repo = true ∧
            jsTruthyStr opts.githubToken = true then
          fetchPRFromGitHub (env.repoInfo.owner.getD "") (env.repoInfo.repo.getD "")
            n opts.githubToken env.githubResp
        else none) with
       | some prInfo => some prInfo
       | none =>
         match (if env.repoInfo.platform = Platform.gitlab ∧
               jsTruthyStr env.repoInfo.projectPath = true ∧
               jsTruthyStr opts.gitlabToken = true then
             fetchPRFromGitLab (env.repoInfo.projectPath.getD "") n
               opts.gitlabToken opts.gitlabUrl env.gitlabResp
           else none) with
         | some prInfo => some prInfo
         | none => some (barePRInfo n)) := by
  unfold getPRInfo
  rw [hs, hx]
  simp only [Bool.false_eq_true, if_false]
  rw [if_neg h0]

/-- A successful guarded GitHub fetch is returned verbatim by `getPRInfo`. -/
theorem getPRInfo_gh_success (msg : String) (body : Option String)
    (opts : PROptions) (env : PREnv) (n : Nat) (info : PRInfo)
    (hs : opts.skipPR = false) (hx : extractPRNumber msg body = some n)
    (h0 : n ≠ 0)
    (hp : env.repoInfo.platform = Platform.github)
    (ho : jsTruthyStr env.repoInfo.owner = true)
    (hr2 : jsTruthyStr env.repoInfo.repo = true)
    (hf : fetchPRFromGitHub (env.repoInfo.owner.getD "") (env.repoInfo.repo.getD "")
        n opts.githubToken env.githubResp = some info) :
    getPRInfo msg body opts env = some info := by
  have htok : jsTruthyStr opts.githubToken = true := by
    cases hb : jsTruthyStr opts.githubToken
    · exfalso
      unfold fetchPRFromGitHub at hf
      rw [if_pos hb] at hf
      cases hf
    · rfl
  rw [getPRInfo_unfold msg body opts env n hs hx h0]
  rw [if_pos ⟨hp, ho, hr2, htok⟩, hf]

/-- A successful guarded GitLab fetch is returned verbatim by `getPRInfo`. -/
theorem getPRInfo_gl_success (msg : String) (body : Option String)
    (opts : PROptions) (env : PREnv) (n : Nat) (info : PRInfo)
    (hs : opts.skipPR = false) (hx : extractPRNumber msg body = some n)
    (h0 : n ≠ 0)
    (hp : env.repoInfo.platform = Platform.gitlab)
    (hpp : jsTruthyStr env.repoInfo.projectPath = true)
    (hf : fetchPRFromGitLab (env.repoInfo.projectPath.getD "") n
        opts.gitlabToken opts.gitlabUrl env.gitlabResp = some info) :
    getPRInfo msg body opts env = some info := by
  have htok : jsTruthyStr opts.gitlabToken = true := by
    cases hb : jsTruthyStr opts.gitlabToken
    · exfalso
      unfold fetchPRFromGitLab at hf
      rw [if_pos hb] at hf
      cases hf
    · rfl
  have hghF : ¬(env.repoInfo.platform = Platform.github ∧
      jsTruthyStr env.repoInfo.owner = true ∧
      jsTruthyStr env.repoInfo.repo = true ∧
      jsTruthyStr opts.githubToken = true) := by
    rintro ⟨hcp, -⟩
    rw [hp] at hcp
    cases hcp
  rw [getPRInfo_unfold msg body opts env n hs hx h0]
  rw [if_neg hghF]
  dsimp only
  rw [if_pos ⟨hp, hpp, htok⟩, hf]

/-- When both guarded fetch attempts produce nothing (guard false — missing
token, unknown platform — or fetch failure), `getPRInfo` returns the bare
number. -/
theorem getPRInfo_fallback_bare (msg : String) (body : Option String)
    (opts : PROptions) (env : PREnv) (n : Nat)
    (hs : opts.skipPR = false) (hx : extractPRNumber msg body = some n)
    (h0 : n ≠ 0)
    (hgh : (if env.repoInfo.platform = Platform.github ∧
          jsTruthyStr env.repoInfo.owner = true ∧
          jsTruthyStr env.repoInfo.repo = true ∧
          jsTruthyStr opts.githubToken = true then
        fetchPRFromGitHub (env.repoInfo.owner.getD "") (env.repoInfo.repo.getD "")
          n opts.githubToken env.githubResp
      else none) = none)
    (hgl : (if env.repoInfo.platform = Platform.gitlab ∧
          jsTruthyStr env.repoInfo.projectPath = true ∧
          jsTruthyStr opts.gitlabToken = true then
        fetchPRFromGitLab (env.repoInfo.projectPath.getD "") n
          opts.gitlabToken opts.gitlabUrl env.gitlabResp
      else none) = none) :
    getPRInfo msg body opts env = some (barePRInfo n) := by
  rw [getPRInfo_unfold msg body opts env n hs hx h0, hgh]
  dsimp only
  rw [hgl]

/-- C5 (amended): `getPRInfo` never throws and degrades: it returns `none`
exactly when resolution is disabled or no truthy (nonzero) reference number
is extractable — the source's `if (!prNumber)` also drops an extracted `0`.
Otherwise: a successful GitHub fetch (GitHub platform, truthy owner/repo) is
returned verbatim as the full fetch result; a successful GitLab fetch
(GitLab platform, truthy project path) likewise; and when both guarded
attempts yield nothing (missing token, unknown platform, network error,
non-success status), the bare `{number}` is returned. -/
theorem C5_getPRInfo_degrades (msg : String) (body : Option String)
    (opts : PROptions) (env : PREnv) :
    (getPRInfo msg body opts env = none ↔
      opts.skipPR = true ∨ extractPRNumber msg body = none ∨
        extractPRNumber msg body = some 0) ∧
    (∀ n, extractPRNumber msg body = some n → n ≠ 0 → opts.skipPR = false →
      (∀ info, env.repoInfo.platform = Platform.github →
        jsTruthyStr env.repoInfo.owner = true →
        jsTruthyStr env.repoInfo.repo = true →
        fetchPRFromGitHub (env.repoInfo.owner.getD "") (env.repoInfo.repo.getD "")
            n opts.githubToken env.githubResp = some info →
        getPRInfo msg body opts env = some info) ∧
      (∀ info, env.repoInfo.platform = Platform.gitlab →
        jsTruthyStr env.repoInfo.projectPath = true →
        fetchPRFromGitLab (env.repoInfo.projectPath.getD "") n
            opts.gitlabToken opts.gitlabUrl env.gitlabResp = some info →
        getPRInfo msg body opts env = some info) ∧
      ((if env.repoInfo.platform = Platform.github ∧
            jsTruthyStr env.repoInfo.owner = true ∧
            jsTruthyStr env.repoInfo.repo = true ∧
            jsTruthyStr opts.githubToken = true then
          fetchPRFromGitHub (env.repoInfo.owner.getD "") (env.repoInfo.repo.getD "")
            n opts.githubToken env.githubResp
        else none) = none →
       (if env.repoInfo.platform = Platform.gitlab ∧
            jsTruthyStr env.repoInfo.projectPath = true ∧
            jsTruthyStr opts.gitlabToken = true then
          fetchPRFromGitLab (env.repoInfo.projectPath.getD "") n
            opts.gitlabToken opts.gitlabUrl env.gitlabResp
        else none) = none →
       getPRInfo msg body opts env = some (barePRInfo n))) :=
  ⟨getPRInfo_none_iff msg body opts env,
   fun n hx h0 hs =>
     ⟨fun info hp ho hr2 hf =>
        getPRInfo_gh_success msg body opts env n info hs hx h0 hp ho hr2 hf,
      fun info hp hpp hf =>
        getPRInfo_gl_success msg body opts env n info hs hx h0 hp hpp hf,
      fun hgh hgl =>
        getPRInfo_fallback_bare msg body opts env n hs hx h0 hgh hgl⟩⟩

/-- C5 (witness): on `"fix #12"` with a GitHub token and a successful fetch,
`getPRInfo` returns exactly the fetched record — number 12, the fetched
title, the fetched body as description, and the fetched URL. -/
theorem C5_witness :
    getPRInfo "fix #12" none ghPROpts ghEnv =
      some { number := 12, title := some "Optimize database queries",
             description := some "desc", url := some "https://x" } :=
  ((C5_getPRInfo_degrades "fix #12" none ghPROpts ghEnv).2 12 (by decide)
      (by decide) (by decide)).1
    { number := 12, title := some "Optimize database queries",
      description := some "desc", url := some "https://x" }
    (by decide) (by decide) (by decide) (by decide)

/-! ## Helper lemmas about the achievement generator -/

theorem generateWithOpenAI_spec (c : Commit) (d : String) (da : DiffAnalysis)
    (k : String) (resp : Option String) (r : AchievementResult)
    (h : generateWithOpenAI c d da k resp = some r) :
    r.aiGenerated = true ∧ r.confidence = 0.95 ∧ r.dataLocal = false ∧
      r.achievement ≠ "" := by
  unfold generateWithOpenAI at h
  revert h
  split
  · intro h
    cases h
  case h_2 content =>
    split
    · intro h
      cases h
    case isFalse hne =>
      intro h
      cases h
      refine ⟨rfl, rfl, rfl, ?_⟩
      show strTake (jsTrim content) 150 ≠ ""
      unfold strTake
      intro he
      apply hne
      have : (jsTrim content).data.take 150 = [] := congrArg String.data he
      rcases hx : (jsTrim content).data with _ | ⟨c, t⟩
      · exact String.ext hx
      · rw [hx] at this
        simp at this

theorem generateWithOllama_spec (c : Commit) (d : String) (da : DiffAnalysis)
    (m : String) (resp : Option String) (r : AchievementResult)
    (h : generateWithOllama c d da m resp = some r) :
    r.aiGenerated = true ∧ r.confidence = 0.85 ∧ r.dataLocal = true ∧
      r.achievement ≠ "" := by
  unfold generateWithOllama at h
  revert h
  split
  · intro h
    cases h
  case h_2 content =>
    split
    · intro h
      cases h
    case isFalse hne =>
      intro h
      cases h
      refine ⟨rfl, rfl, rfl, ?_⟩
      show strTake (jsTrim content) 150 ≠ ""
      unfold strTake
      intro he
      apply hne
      have : (jsTrim content).data.take 150 = [] := congrArg String.data he
      rcases hx : (jsTrim content).data with _ | ⟨c, t⟩
      · exact String.ext hx
      · rw [hx] at this
        simp at this

/-- A string starting with a non-empty literal is non-empty. -/
theorem append_left_ne_empty (p q : String) (h : p.data ≠ []) : p ++ q ≠ "" := by
  intro he
  apply h
  have hd : p.data ++ q.data = [] := by
    rw [← String.data_append, he]
  exact (List.append_eq_nil.mp hd).1

theorem foldl_pick_mem (ys : List (String × Nat)) (b : String × Nat) :
    ys.foldl (fun best y => if y.2 > best.2 then y else best) b ∈ b :: ys := by
  induction ys generalizing b with
  | nil => simp
  | cons y ys ih =>
    simp only [List.foldl_cons]
    by_cases h : y.2 > b.2
    · simp only [h, if_true]
      rcases List.mem_cons.mp (ih y) with h2 | h2
      · rw [h2]
        exact List.mem_cons_of_mem b (List.mem_cons_self y ys)
      · exact List.mem_cons_of_mem b (List.mem_cons_of_mem y h2)
    · simp only [h, if_false]
      rcases List.mem_cons.mp (ih b) with h2 | h2
      · rw [h2]
        exact List.mem_cons_self b (y :: ys)
      · exact List.mem_cons_of_mem b (List.mem_cons_of_mem y h2)

theorem argmaxFirst_mem (l : List (String × Nat)) (x : String × Nat)
    (h : argmaxFirst l = some x) : x ∈ l := by
  unfold argmaxFirst at h
  cases l with
  | nil => cases h
  | cons a as =>
    cases h
    exact foldl_pick_mem as a

theorem extractComponent_ne_empty (files : List String) (diffContent : String) :
    extractComponent files diffContent ≠ "" := by
  unfold extractComponent
  dsimp only
  split
  case h_1 top heq =>
    have hmem := argmaxFirst_mem _ _ heq
    have hname : top.1 ≠ "" := by
      rcases List.mem_filterMap.mp hmem with ⟨cp, hcp, hsome⟩
      have hfst : cp.1 = top.1 := by
        revert hsome
        split
        · intro hsome
          cases hsome
          rfl
        · intro hsome
          cases hsome
      rw [← hfst]
      have hcp2 : cp ∈ COMPONENT_PATTERNS := hcp
      revert hcp2
      unfold COMPONENT_PATTERNS
      intro hcp2
      simp only [List.mem_cons, List.not_mem_nil, or_false] at hcp2
      rcases hcp2 with h | h | h | h | h | h | h | h | h | h | h <;>
        · rw [h]
          decide
    unfold titleCaseStr
    revert hname
    rcases hx : top.1.data with _ | ⟨c, t⟩
    · intro hname
      exact absurd (String.ext hx) hname
    · intro _ he
      have hd : (Char.toUpper c :: t) = [] := congrArg String.data he
      cases hd
  case h_2 heq =>
    split
    · decide
    · split
      · decide
      · split
        · decide
        · decide

theorem strNe_of_data (s : String) (h : s.data ≠ []) : s ≠ "" := fun he =>
  h (congrArg String.data he)

theorem strAppend_data_ne_nil (p q : String) (h : p.data ≠ []) :
    (p ++ q).data ≠ [] := by
  rw [String.data_append]
  exact fun hc => h (List.append_eq_nil.mp hc).1

theorem patternStep_ne_empty (c : Commit) (da : DiffAnalysis) (d : String) :
    (patternStep c da d).1 ≠ "" := by
  unfold patternStep
  dsimp only
  repeat' split
  all_goals
    (show (_ : String × Bool).1 ≠ ""
     dsimp only
     apply strNe_of_data
     repeat apply strAppend_data_ne_nil
     decide)

theorem finalizeResult_spec (c : Commit) (da : DiffAnalysis) (env : GenEnv)
    (t : String) (conf : ℚ) :
    (finalizeResult c da env t conf).aiGenerated = false ∧
    (finalizeResult c da env t conf).dataLocal = true ∧
    ((finalizeResult c da env t conf).confidence = conf ∨
      (finalizeResult c da env t conf).confidence = 0.6) ∧
    (finalizeResult c da env t conf).achievement ≠ "" := by
  unfold finalizeResult
  split
  case isTrue ht =>
    refine ⟨rfl, rfl, ?_, ?_⟩
    · dsimp only
      by_cases hp : (patternStep c da env.diffContent).2 = true
      · rw [hp]
        exact Or.inl (by simp)
      · rw [Bool.not_eq_true] at hp
        rw [hp]
        exact Or.inr (by simp)
    · show jsOrStr (patternStep c da env.diffContent).1 _ ≠ ""
      unfold jsOrStr
      rw [if_neg (patternStep_ne_empty c da env.diffContent)]
      exact patternStep_ne_empty c da env.diffContent
  case isFalse ht =>
    refine ⟨rfl, rfl, Or.inl rfl, ?_⟩
    show jsOrStr t _ ≠ ""
    unfold jsOrStr
    rw [if_neg ht]
    exact ht

theorem prStep_confidence (c : Commit) (opts : GenOptions) (env : GenEnv) :
    (prStep c opts env).2 = 0.9 ∨ (prStep c opts env).2 = 0.7 ∨
      (prStep c opts env).2 = 0.75 := by
  unfold prStep
  split
  · exact Or.inl rfl
  · split
    · exact Or.inr (Or.inr rfl)
    · split
      · exact Or.inl rfl
      · split
        · exact Or.inr (Or.inl rfl)
        · exact Or.inr (Or.inr rfl)

theorem ifPair_confidence (c : Commit) (opts : GenOptions) (env : GenEnv)
    (b : Bool) :
    ((if b = true then prStep c opts env else (("" : String), (0.75 : ℚ))).2 = 0.9 ∨
     (if b = true then prStep c opts env else (("" : String), (0.75 : ℚ))).2 = 0.7 ∨
     (if b = true then prStep c opts env else (("" : String), (0.75 : ℚ))).2 = 0.75) := by
  cases b
  case false =>
    refine Or.inr (Or.inr ?_)
    rw [if_neg (by simp)]
  case true =>
    rw [if_pos rfl]
    exact prStep_confidence c opts env

theorem generateAchievement_cases (commit : Commit) (da : DiffAnalysis)
    (opts : GenOptions) (env : GenEnv) :
    (∃ r, generateWithOpenAI commit env.diffContent da (opts.apiKey.getD "")
        env.openaiContent = some r ∧
        (generateAchievement commit da opts env).1 = r) ∨
    (∃ r, generateWithOllama commit env.diffContent da
        (jsOrStr (opts.ollamaModel.getD "") "llama3.2") env.ollamaContent = some r ∧
        (generateAchievement commit da opts env).1 = r) ∨
    ((generateAchievement commit da opts env).1 =
      finalizeResult commit da env
        (if !shouldSkipForAI da opts env && usePRInfoCond commit opts then
          prStep commit opts env else ("", 0.75)).1
        (if !shouldSkipForAI da opts env && usePRInfoCond commit opts then
          prStep commit opts env else ("", 0.75)).2) := by
  unfold generateAchievement
  dsimp only
  repeat' split
  all_goals
    first
      | exact Or.inr (Or.inr rfl)
      | (rename_i r heq
         first
           | exact Or.inl ⟨r, heq, rfl⟩
           | exact Or.inr (Or.inl ⟨r, heq, rfl⟩))

/-! ## Claim C1 -/

/-- C1: with the enterprise flag set, `generateAchievement` never invokes a
generative backend (the call log stays empty) regardless of `apiKey` or
`useLocalLlm`, and the result comes from the PR-reference or local pattern
path (pattern provenance, data-local). -/
theorem C1_enterprise_no_backend (commit : Commit) (da : DiffAnalysis)
    (opts : GenOptions) (env : GenEnv) (h : opts.enterprise = true) :
    (generateAchievement commit da opts env).2 = ⟨false, false⟩ ∧
    ((generateAchievement commit da opts env).1).aiGenerated = false ∧
    ((generateAchievement commit da opts env).1).dataLocal = true := by
  have hno : ∀ t : String × ℚ,
      ¬(t.1 = "" ∧ opts.enterprise = false ∧ shouldSkipForAI da opts env = false) := by
    rintro t ⟨-, h2, -⟩
    rw [h] at h2
    exact absurd h2 (by simp)
  unfold generateAchievement
  dsimp only
  rw [if_neg (hno _)]
  exact ⟨rfl, (finalizeResult_spec _ _ _ _ _).1, (finalizeResult_spec _ _ _ _ _).2.1⟩

/-- C1 (witness): the guarantee at a concrete enterprise configuration with
both backends configured and available. -/
theorem C1_witness :
    (generateAchievement (mkCommit "m" none 1 1 none none) lowDA entOpts skipEnv).2
        = ⟨false, false⟩ ∧
    ((generateAchievement (mkCommit "m" none 1 1 none none) lowDA entOpts skipEnv).1).aiGenerated
        = false ∧
    ((generateAchievement (mkCommit "m" none 1 1 none none) lowDA entOpts skipEnv).1).dataLocal
        = true :=
  C1_enterprise_no_backend (mkCommit "m" none 1 1 none none) lowDA entOpts skipEnv rfl

/-! ## Claim C7 -/

/-- C7: when the impact tier is low, a generative backend is configured, and
the 50% draw selects skip, `generateAchievement` makes no backend call and
returns exactly the local pattern-synthesis result (path 3), regardless of
backend availability; and the skip never applies when the tier is not low or
no backend is configured. -/
theorem C7_random_skip (commit : Commit) (da : DiffAnalysis)
    (opts : GenOptions) (env : GenEnv)
    (h1 : da.impactLevel = Impact.low)
    (h2 : (jsTruthyStr opts.apiKey || opts.useLocalLlm) = true)
    (h3 : env.randBelowHalf = true) :
    (generateAchievement commit da opts env).2 = ⟨false, false⟩ ∧
    (generateAchievement commit da opts env).1 = patternOnlyResult commit da env ∧
    (∀ (da2 : DiffAnalysis) (opts2 : GenOptions) (env2 : GenEnv),
      (da2.impactLevel ≠ Impact.low ∨
        (jsTruthyStr opts2.apiKey || opts2.useLocalLlm) = false) →
      shouldSkipForAI da2 opts2 env2 = false) := by
  have hskip : shouldSkipForAI da opts env = true := by
    unfold shouldSkipForAI
    rw [h1, h2, h3]
    rfl
  refine ⟨?_, ?_, ?_⟩
  · unfold generateAchievement
    dsimp only
    rw [hskip]
    simp only [Bool.not_true, Bool.false_and, Bool.false_eq_true, if_false]
    rw [if_neg (by simp)]
  · unfold generateAchievement patternOnlyResult
    dsimp only
    rw [hskip]
    simp only [Bool.not_true, Bool.false_and, Bool.false_eq_true, if_false]
    rw [if_neg (by simp)]
  · intro da2 opts2 env2 h
    unfold shouldSkipForAI
    rcases h with h | h
    · have hb : (da2.impactLevel == Impact.low) = false := by
        simp [h]
      rw [hb]
      simp
    · rw [h]
      simp

/-- C7 (witness): the skip at a concrete low-impact commit with an OpenAI
key configured and an available backend response. -/
theorem C7_witness :
    (generateAchievement (mkCommit "m" none 1 1 none none) lowDA keyOpts skipEnv).2
        = ⟨false, false⟩ ∧
    (generateAchievement (mkCommit "m" none 1 1 none none) lowDA keyOpts skipEnv).1
        = patternOnlyResult (mkCommit "m" none 1 1 none none) lowDA skipEnv ∧
    (∀ (da2 : DiffAnalysis) (opts2 : GenOptions) (env2 : GenEnv),
      (da2.impactLevel ≠ Impact.low ∨
        (jsTruthyStr opts2.apiKey || opts2.useLocalLlm) = false) →
      shouldSkipForAI da2 opts2 env2 = false) :=
  C7_random_skip (mkCommit "m" none 1 1 none none) lowDA keyOpts skipEnv rfl
    (by decide) rfl

/-! ## Claim C2 -/

/-- C2: provenance/confidence consistency — every `AchievementResult`
returned by `generateAchievement` has confidence 0.95 or 0.85 when
backend-generated, and 0.9, 0.7, 0.75, or 0.6 when pattern-based; no other
confidence value occurs. -/
theorem C2_confidence_consistency (commit : Commit) (da : DiffAnalysis)
    (opts : GenOptions) (env : GenEnv) :
    (((generateAchievement commit da opts env).1).aiGenerated = true →
      ((generateAchievement commit da opts env).1).confidence = 0.95 ∨
      ((generateAchievement commit da opts env).1).confidence = 0.85) ∧
    (((generateAchievement commit da opts env).1).aiGenerated = false →
      ((generateAchievement commit da opts env).1).confidence = 0.9 ∨
      ((generateAchievement commit da opts env).1).confidence = 0.7 ∨
      ((generateAchievement commit da opts env).1).confidence = 0.75 ∨
      ((generateAchievement commit da opts env).1).confidence = 0.6) := by
  rcases generateAchievement_cases commit da opts env with
    ⟨r, hr, he⟩ | ⟨r, hr, he⟩ | he
  · have hs := generateWithOpenAI_spec _ _ _ _ _ _ hr
    rw [he]
    exact ⟨fun _ => Or.inl hs.2.1, fun hf => absurd hf (by rw [hs.1]; simp)⟩
  · have hs := generateWithOllama_spec _ _ _ _ _ _ hr
    rw [he]
    exact ⟨fun _ => Or.inr hs.2.1, fun hf => absurd hf (by rw [hs.1]; simp)⟩
  · rw [he]
    have hfs := finalizeResult_spec commit da env
      (if !shouldSkipForAI da opts env && usePRInfoCond commit opts then
        prStep commit opts env else ("", 0.75)).1
      (if !shouldSkipForAI da opts env && usePRInfoCond commit opts then
        prStep commit opts env else ("", 0.75)).2
    constructor
    · intro hai
      exact absurd hai (by rw [hfs.1]; simp)
    · intro _
      rcases hfs.2.2.1 with hc | hc
      · rw [hc]
        rcases ifPair_confidence commit opts env
            (!shouldSkipForAI da opts env && usePRInfoCond commit opts) with
          h9 | h7 | h75
        · exact Or.inl h9
        · exact Or.inr (Or.inl h7)
        · exact Or.inr (Or.inr (Or.inl h75))
      · exact Or.inr (Or.inr (Or.inr hc))

/-- C2 (witness): the pattern-side consistency applied to a concrete
pattern-based run (bare PR-number path, confidence 0.7). -/
theorem C2_witness :
    ((generateAchievement (mkCommit "fix #7" none 1 1 (some 7) none) lowDA
        plainOpts plainEnv).1).confidence = 0.9 ∨
    ((generateAchievement (mkCommit "fix #7" none 1 1 (some 7) none) lowDA
        plainOpts plainEnv).1).confidence = 0.7 ∨
    ((generateAchievement (mkCommit "fix #7" none 1 1 (some 7) none) lowDA
        plainOpts plainEnv).1).confidence = 0.75 ∨
    ((generateAchievement (mkCommit "fix #7" none 1 1 (some 7) none) lowDA
        plainOpts plainEnv).1).confidence = 0.6 :=
  (C2_confidence_consistency (mkCommit "fix #7" none 1 1 (some 7) none) lowDA
    plainOpts plainEnv).2 (by decide)

/-! ## Claim C10 -/

/-- C10: the local pattern synthesis always yields a non-empty achievement
(`extractComponent` never returns the empty string, every template and
impact-level fallback string is non-empty), so the truncated-subject final
fallback is never selected and `generateAchievement` never returns an empty
achievement. -/
theorem C10_nonempty_achievement :
    (∀ (files : List String) (diffContent : String),
        extractComponent files diffContent ≠ "") ∧
    (∀ (c : Commit) (da : DiffAnalysis) (d : String),
        (patternStep c da d).1 ≠ "") ∧
    (∀ (c : Commit) (da : DiffAnalysis) (opts : GenOptions) (env : GenEnv),
        ((generateAchievement c da opts env).1).achievement ≠ "") := by
  refine ⟨extractComponent_ne_empty, patternStep_ne_empty, ?_⟩
  intro c da opts env
  rcases generateAchievement_cases c da opts env with
    ⟨r, hr, he⟩ | ⟨r, hr, he⟩ | he
  · rw [he]
    exact (generateWithOpenAI_spec _ _ _ _ _ _ hr).2.2.2
  · rw [he]
    exact (generateWithOllama_spec _ _ _ _ _ _ hr).2.2.2
  · rw [he]
    exact (finalizeResult_spec _ _ _ _ _).2.2.2

/-! ## Helper lemmas about the diff analyzer's signal strings -/

theorem data_take2_append (p q : String) (h2 : 2 ≤ p.data.length) :
    (p ++ q).data.take 2 = p.data.take 2 := by
  rw [String.data_append, List.take_append_eq_append_take,
    Nat.sub_eq_zero_of_le h2]
  simp

/-- A string that starts with a literal whose first two characters differ
from `"St"` is not `"Standard commit"`. -/
theorem signal_ne_std (p q : String) (h2 : 2 ≤ p.data.length)
    (hne : p.data.take 2 ≠ "Standard commit".data.take 2) :
    p ++ q ≠ "Standard commit" := by
  intro he
  apply hne
  rw [← data_take2_append p q h2, he]

theorem signal3_ne_std (p x q : String) (h2 : 2 ≤ p.data.length)
    (hne : p.data.take 2 ≠ "Standard commit".data.take 2) :
    p ++ x ++ q ≠ "Standard commit" := by
  apply signal_ne_std
  · rw [String.data_append, List.length_append]
    omega
  · rw [data_take2_append p x h2]
    exact hne

theorem baseSignals_ne_std (c : Commit) (d : Option String) :
    ∀ s ∈ baseSignals c d, s ≠ "Standard commit" := by
  intro s hs
  unfold baseSignals at hs
  rcases List.mem_append.mp hs with h | h
  · rcases List.mem_map.mp h with ⟨f, -, rfl⟩
    exact signal_ne_std _ _ (by decide) (by decide)
  · unfold diffContentSignals at h
    rcases d with - | diff
    · simp at h
    · revert h
      dsimp only
      intro h
      rcases List.mem_append.mp h with h | h
      · rcases List.mem_append.mp h with h | h
        · rcases List.mem_append.mp h with h | h
          · rcases List.mem_append.mp h with h | h
            · revert h
              split
              · intro h
                rw [List.mem_singleton.mp h]
                exact signal_ne_std _ _ (by decide) (by decide)
              · intro h
                simp at h
            · revert h
              split
              · intro h
                rw [List.mem_singleton.mp h]
                decide
              · intro h
                simp at h
          · revert h
            split
            · intro h
              rw [List.mem_singleton.mp h]
              decide
            · intro h
              simp at h
        · revert h
          split
          · intro h
            rw [List.mem_singleton.mp h]
            decide
          · intro h
            simp at h
      · revert h
        split
        · intro h
          rw [List.mem_singleton.mp h]
          decide
        · intro h
          simp at h

theorem tierSignals_ne_std (c : Commit) (d : Option String) :
    ∀ s ∈ tierSignals c d, s ≠ "Standard commit" := by
  intro s hs
  unfold tierSignals at hs
  split at hs
  · rcases List.mem_append.mp hs with h | h
    · exact baseSignals_ne_std c d s h
    · revert h
      split
      · intro h
        rw [List.mem_singleton.mp h]
        exact signal3_ne_std _ _ _ (by decide) (by decide)
      · intro h
        simp at h
  · split at hs
    · rcases List.mem_append.mp hs with h | h
      · rcases List.mem_append.mp h with h | h
        · exact baseSignals_ne_std c d s h
        · revert h
          split
          · intro h
            rw [List.mem_singleton.mp h]
            exact signal3_ne_std _ _ _ (by decide) (by decide)
          · intro h
            simp at h
      · revert h
        split
        · intro h
          rw [List.mem_singleton.mp h]
          exact signal3_ne_std _ _ _ (by decide) (by decide)
        · intro h
          simp at h
    · rcases List.mem_append.mp hs with h | h
      · rcases List.mem_append.mp h with h | h
        · exact baseSignals_ne_std c d s h
        · revert h
          split
          · intro h
            rw [List.mem_singleton.mp h]
            exact signal3_ne_std _ _ _ (by decide) (by decide)
          · intro h
            simp at h
      · revert h
        split
        · intro h
          rw [List.mem_singleton.mp h]
          exact signal3_ne_std _ _ _ (by decide) (by decide)
        · intro h
          simp at h

theorem tierSignals_ne_nil (c : Commit) (d : Option String) :
    tierSignals c d ≠ [] := by
  unfold tierSignals
  split
  case isTrue hhigh =>
    by_cases h5 : totalLinesOf c > 500
    · rw [if_pos h5]
      intro hnil
      rcases List.append_eq_nil.mp hnil with ⟨-, hA⟩
      cases hA
    · rw [if_neg h5]
      simp only [List.append_nil]
      unfold highCond at hhigh
      rcases hhigh with h | h | h
      · exact absurd h h5
      · unfold criticalCount at h
        unfold baseSignals
        intro hnil
        rcases List.append_eq_nil.mp hnil with ⟨hm, -⟩
        rw [List.map_eq_nil_iff.mp hm] at h
        simp at h
      · intro hnil
        rw [hnil] at h
        simp at h
  case isFalse hhigh =>
    split
    case isTrue hmed =>
      by_cases h100 : 100 ≤ totalLinesOf c
      · rw [if_pos h100]
        intro hnil
        rcases List.append_eq_nil.mp hnil with ⟨hnil2, -⟩
        rcases List.append_eq_nil.mp hnil2 with ⟨-, hA⟩
        cases hA
      · rw [if_neg h100]
        simp only [List.append_nil]
        unfold medCond at hmed
        rcases hmed with ⟨h, -⟩ | h | h
        · exact absurd h h100
        · rw [if_pos h.1]
          intro hnil
          rcases List.append_eq_nil.mp hnil with ⟨-, hA⟩
          cases hA
        · intro hnil
          rcases List.append_eq_nil.mp hnil with ⟨hb, -⟩
          rw [hb] at h
          simp at h
    case isFalse hmed =>
      have hA : ¬ totalLinesOf c > 500 := fun hx => hhigh (Or.inl hx)
      have hB : ¬ (100 ≤ totalLinesOf c ∧ totalLinesOf c ≤ 500) :=
        fun hx => hmed (Or.inl hx)
      have hlt : totalLinesOf c < 100 := by omega
      rw [if_pos hlt]
      intro hnil
      rcases List.append_eq_nil.mp hnil with ⟨hnil2, -⟩
      rcases List.append_eq_nil.mp hnil2 with ⟨-, hA2⟩
      cases hA2

theorem analyzeDiff_signals (c : Commit) (d : Option String) :
    (analyzeDiff c d).signals = tierSignals c d := by
  unfold analyzeDiff
  dsimp only
  rw [if_neg]
  rw [List.isEmpty_iff]
  exact tierSignals_ne_nil c d

/-! ## Claim C3 -/

/-- C3: `analyzeDiff` assigns the high tier whenever `totalLines` exceeds
500 — regardless of file count, keywords, or diff availability — appending
the `"Large change: <n> lines"` signal, and likewise assigns high whenever
`criticalFilesModified > 0`. -/
theorem C3_high_impact (c : Commit) (d : Option String) :
    (totalLinesOf c > 500 →
      (analyzeDiff c d).impactLevel = Impact.high ∧
      ("Large change: " ++ toString (totalLinesOf c) ++ " lines")
        ∈ (analyzeDiff c d).signals) ∧
    ((analyzeDiff c d).changeMetrics.criticalFilesModified > 0 →
      (analyzeDiff c d).impactLevel = Impact.high) := by
  constructor
  · intro h5
    have hh : highCond c d := Or.inl h5
    constructor
    · unfold analyzeDiff
      dsimp only
      rw [if_pos hh]
    · rw [analyzeDiff_signals]
      unfold tierSignals
      rw [if_pos hh, if_pos h5]
      exact List.mem_append.mpr (Or.inr (List.mem_singleton_self _))
  · intro hcrit
    have heq : (analyzeDiff c d).changeMetrics.criticalFilesModified
        = criticalCount c := rfl
    rw [heq] at hcrit
    have hh : highCond c d := Or.inr (Or.inl hcrit)
    unfold analyzeDiff
    dsimp only
    rw [if_pos hh]

/-- C3 (witness): a commit with 600 changed lines, no files, diff
unavailable — tier high, `"Large change: 600 lines"` among the signals. -/
theorem C3_witness :
    (analyzeDiff c600 none).impactLevel = Impact.high ∧
      "Large change: 600 lines" ∈ (analyzeDiff c600 none).signals := by
  have h := (C3_high_impact c600 none).1 (by decide)
  have he : "Large change: " ++ toString (totalLinesOf c600) ++ " lines"
      = "Large change: 600 lines" := by decide
  exact ⟨h.1, he ▸ h.2⟩

/-! ## Claim C8 -/

set_option maxRecDepth 100000

/-- C8: the structural diff checks are independent — on a diff with 150
added-line markers and 400 removed-line markers both the refactoring signal
(`removed > 100 ∧ added > 100`) and the bug-fix signal
(`removed > 50 ∧ added < removed/2`) fire in the same `analyzeDiff` run. -/
theorem C8_independent_signals :
    countLinesStarting '+' c8Diff = 150 ∧
    countLinesStarting '-' c8Diff = 400 ∧
    "Large refactoring detected" ∈ (analyzeDiff c8Commit (some c8Diff)).signals ∧
    "Bug fix pattern detected" ∈ (analyzeDiff c8Commit (some c8Diff)).signals := by
  refine ⟨?_, ?_, ?_, ?_⟩ <;> decide

/-! ## Claim C9 -/

/-- C9: the low-tier branch of `analyzeDiff` implies `totalLines < 100`
(so `"Small change: <n> lines"` is appended there), the signal list before
the sentinel fallback is never empty, the returned signals are exactly that
list, and no returned assessment ever has signals `["Standard commit"]` —
the sentinel branch is unreachable. -/
theorem C9_sentinel_unreachable (c : Commit) (d : Option String) :
    ((analyzeDiff c d).impactLevel = Impact.low → totalLinesOf c < 100) ∧
    tierSignals c d ≠ [] ∧
    (analyzeDiff c d).signals = tierSignals c d ∧
    (analyzeDiff c d).signals ≠ ["Standard commit"] := by
  refine ⟨?_, tierSignals_ne_nil c d, analyzeDiff_signals c d, ?_⟩
  · intro hlow
    unfold analyzeDiff at hlow
    dsimp only at hlow
    by_cases hh : highCond c d
    · rw [if_pos hh] at hlow
      exact absurd hlow (by decide)
    · rw [if_neg hh] at hlow
      by_cases hm : medCond c d
      · rw [if_pos hm] at hlow
        exact absurd hlow (by decide)
      · have hA : ¬ totalLinesOf c > 500 := fun hx => hh (Or.inl hx)
        have hB : ¬ (100 ≤ totalLinesOf c ∧ totalLinesOf c ≤ 500) :=
          fun hx => hm (Or.inl hx)
        omega
  · rw [analyzeDiff_signals c d]
    intro he
    have hmem : "Standard commit" ∈ tierSignals c d := by
      rw [he]
      exact List.mem_singleton_self _
    exact tierSignals_ne_std c d _ hmem rfl

/-- C9 (witness): the low-branch bound applied to a concrete 3-line commit
classified low. -/
theorem C9_witness : totalLinesOf cSmall < 100 :=
  (C9_sentinel_unreachable cSmall none).1 (by decide)

end CareerLog
